import Mathlib

/-!
# Verification of the parsec-interface wire-boundary layer

Shallow embedding of the response-header codec
(src/requests/response/response_header.rs) and of the import-key
protobuf converter (src/operations_protobuf/convert_import_key.rs),
together with proofs of the specified properties.

Machine integers are modelled as Nat with explicit reduction modulo
2^width where the source truncates; a byte stream is a List Nat of
byte values; fallible conversions return Except ResponseStatus.
-/

namespace ParsecInterface

/-- Modelled from the spec: the ProviderID enumeration
(crate::requests::ProviderID is not under src/; the spec describes a
closed set of named variants with stable u8 wire codes and a total
reverse lookup failing on unknown codes; src references the Core
variant). -/
inductive ProviderID
  | Core
  | MbedCrypto
  | Pkcs11
  | Tpm
deriving DecidableEq, Repr

def ProviderID.to_u8 : ProviderID → Nat
  | .Core => 0
  | .MbedCrypto => 1
  | .Pkcs11 => 2
  | .Tpm => 3

/-- Modelled from the spec: FromPrimitive reverse lookup for ProviderID. -/
def ProviderID.from_u8 : Nat → Option ProviderID
  | 0 => some .Core
  | 1 => some .MbedCrypto
  | 2 => some .Pkcs11
  | 3 => some .Tpm
  | _ => none

/-- Modelled from the spec: the BodyType enumeration (body encoding
scheme, u8 wire code); src references the Protobuf variant. -/
inductive BodyType
  | Protobuf
deriving DecidableEq, Repr

def BodyType.to_u8 : BodyType → Nat
  | .Protobuf => 0

/-- Modelled from the spec: FromPrimitive reverse lookup for BodyType. -/
def BodyType.from_u8 : Nat → Option BodyType
  | 0 => some .Protobuf
  | _ => none

/-- Modelled from the spec: the Opcode enumeration (u16 wire code);
src references the Ping and ImportKey variants. -/
inductive Opcode
  | Ping
  | CreateKey
  | DestroyKey
  | AsymSign
  | AsymVerify
  | ImportKey
  | ExportPublicKey
  | ListProviders
  | ListOpcodes
deriving DecidableEq, Repr

def Opcode.to_u16 : Opcode → Nat
  | .Ping => 1
  | .CreateKey => 2
  | .DestroyKey => 3
  | .AsymSign => 4
  | .AsymVerify => 5
  | .ImportKey => 6
  | .ExportPublicKey => 7
  | .ListProviders => 8
  | .ListOpcodes => 9

/-- Modelled from the spec: FromPrimitive reverse lookup for Opcode. -/
def Opcode.from_u16 : Nat → Option Opcode
  | 1 => some .Ping
  | 2 => some .CreateKey
  | 3 => some .DestroyKey
  | 4 => some .AsymSign
  | 5 => some .AsymVerify
  | 6 => some .ImportKey
  | 7 => some .ExportPublicKey
  | 8 => some .ListProviders
  | 9 => some .ListOpcodes
  | _ => none

/-- Modelled from the spec: the ResponseStatus enumeration (u16 wire
code), doubling as the error type of every fallible conversion in the
crate; src references Success, InvalidHeader,
WireProtocolVersionNotSupported, ProviderDoesNotExist,
ContentTypeNotSupported, OpcodeDoesNotExist and InvalidEncoding.
ConnectionError models the conversion of a propagated std::io::Error
(short or failed stream read). -/
inductive ResponseStatus
  | Success
  | WrongProviderID
  | ContentTypeNotSupported
  | WireProtocolVersionNotSupported
  | ProviderNotRegistered
  | ProviderDoesNotExist
  | DeserializingBodyFailed
  | SerializingBodyFailed
  | OpcodeDoesNotExist
  | ResponseTooLarge
  | UnsupportedOperation
  | UnauthorisedOperation
  | InvalidHeader
  | InvalidEncoding
  | ConnectionError
deriving DecidableEq, Repr

def ResponseStatus.to_u16 : ResponseStatus → Nat
  | .Success => 0
  | .WrongProviderID => 1
  | .ContentTypeNotSupported => 2
  | .WireProtocolVersionNotSupported => 3
  | .ProviderNotRegistered => 4
  | .ProviderDoesNotExist => 5
  | .DeserializingBodyFailed => 6
  | .SerializingBodyFailed => 7
  | .OpcodeDoesNotExist => 8
  | .ResponseTooLarge => 9
  | .UnsupportedOperation => 10
  | .UnauthorisedOperation => 11
  | .InvalidHeader => 12
  | .InvalidEncoding => 13
  | .ConnectionError => 14

/-- Modelled from the spec: FromPrimitive reverse lookup for
ResponseStatus. -/
def ResponseStatus.from_u16 : Nat → Option ResponseStatus
  | 0 => some .Success
  | 1 => some .WrongProviderID
  | 2 => some .ContentTypeNotSupported
  | 3 => some .WireProtocolVersionNotSupported
  | 4 => some .ProviderNotRegistered
  | 5 => some .ProviderDoesNotExist
  | 6 => some .DeserializingBodyFailed
  | 7 => some .SerializingBodyFailed
  | 8 => some .OpcodeDoesNotExist
  | 9 => some .ResponseTooLarge
  | 10 => some .UnsupportedOperation
  | 11 => some .UnauthorisedOperation
  | 12 => some .InvalidHeader
  | 13 => some .InvalidEncoding
  | 14 => some .ConnectionError
  | _ => none

/-- A raw representation of a response header, as defined in the wire
format (struct Raw in response_header.rs). Field widths: u8, u8, u8,
u64, u8, u32, u16, u16, modelled as Nat. -/
structure Raw where
  version_maj : Nat
  version_min : Nat
  provider : Nat
  session : Nat
  content_type : Nat
  body_len : Nat
  opcode : Nat
  status : Nat
deriving DecidableEq, Repr

/-- A native representation of the response header
(struct ResponseHeader in response_header.rs). -/
structure ResponseHeader where
  version_maj : Nat
  version_min : Nat
  provider : ProviderID
  session : Nat
  content_type : BodyType
  opcode : Opcode
  status : ResponseStatus
deriving DecidableEq, Repr

/-- ResponseHeader::new in response_header.rs. -/
def ResponseHeader.new : ResponseHeader :=
  { version_maj := 1
    version_min := 0
    provider := ProviderID.Core
    session := 0
    content_type := BodyType.Protobuf
    opcode := Opcode.Ping
    status := ResponseStatus.Success }

/-- impl TryFrom of Raw for ResponseHeader (response_header.rs lines
137-171): decode provider, then content_type, then opcode, then
status, failing on the first unknown code. -/
def ResponseHeader.try_from (header : Raw) : Except ResponseStatus ResponseHeader :=
  match ProviderID.from_u8 header.provider with
  | none => .error .ProviderDoesNotExist
  | some provider =>
    match BodyType.from_u8 header.content_type with
    | none => .error .ContentTypeNotSupported
    | some content_type =>
      match Opcode.from_u16 header.opcode with
      | none => .error .OpcodeDoesNotExist
      | some opcode =>
        match ResponseStatus.from_u16 header.status with
        | none => .error .InvalidEncoding
        | some status =>
          .ok { version_maj := header.version_maj
                version_min := header.version_min
                provider := provider
                session := header.session
                content_type := content_type
                opcode := opcode
                status := status }

/-- impl From of ResponseHeader for Raw (response_header.rs lines
177-190): each enumeration variant is cast to its wire code and
body_len is left at 0. -/
def Raw.from_native (header : ResponseHeader) : Raw :=
  { version_maj := header.version_maj
    version_min := header.version_min
    provider := ProviderID.to_u8 header.provider
    session := header.session
    content_type := BodyType.to_u8 header.content_type
    body_len := 0
    opcode := Opcode.to_u16 header.opcode
    status := ResponseStatus.to_u16 header.status }

/-! ## Little-endian byte serialization (bincode fixed-width layout) -/

/-- Little-endian encoding of a natural number into w bytes,
truncating modulo 2^(8*w) as bincode does for fixed-width integers. -/
def natToLE : Nat → Nat → List Nat
  | 0, _ => []
  | w + 1, n => n % 256 :: natToLE w (n / 256)

/-- Little-endian decoding of a byte list into a natural number; each
entry is reduced modulo 256 so that arbitrary streams decode like
byte streams. -/
def leToNat : List Nat → Nat
  | [] => 0
  | b :: bs => b % 256 + 256 * leToNat bs

/-- Modelled from the spec: the fixed process-wide 4-byte magic
constant (crate::requests::MAGIC_NUMBER is not under src/). -/
def MAGIC_NUMBER : Nat := 0x5EC0A710

/-- Modelled from the spec: the compiled header-size constant
(super::RESPONSE_HDR_SIZE is not under src/); the fixed-layout record
of §3 totals 1+1+1+8+1+4+2+2 = 20 bytes. -/
def RESPONSE_HDR_SIZE : Nat := 20

/-- bincode::serialize of a Raw header: the fixed positional
little-endian layout of its fields. -/
def Raw.serialize (r : Raw) : List Nat :=
  natToLE 1 r.version_maj ++ natToLE 1 r.version_min ++ natToLE 1 r.provider ++
    natToLE 8 r.session ++ natToLE 1 r.content_type ++ natToLE 4 r.body_len ++
    natToLE 2 r.opcode ++ natToLE 2 r.status

/-- bincode::deserialize of a Raw header from a 20-byte buffer;
fails (as bincode does) when the buffer has the wrong length. -/
def Raw.deserialize (bs : List Nat) : Option Raw :=
  if bs.length = RESPONSE_HDR_SIZE then
    some { version_maj := leToNat (bs.take 1)
           version_min := leToNat ((bs.drop 1).take 1)
           provider := leToNat ((bs.drop 2).take 1)
           session := leToNat ((bs.drop 3).take 8)
           content_type := leToNat ((bs.drop 11).take 1)
           body_len := leToNat ((bs.drop 12).take 4)
           opcode := leToNat ((bs.drop 16).take 2)
           status := leToNat ((bs.drop 18).take 2) }
  else none

/-- Raw::write_to_stream (response_header.rs lines 62-70): writes the
magic constant, the header-size constant, then the serialized header.
The sink is pure, so the produced byte list is returned. -/
def Raw.write_to_stream (r : Raw) : List Nat :=
  natToLE 4 MAGIC_NUMBER ++ natToLE 2 RESPONSE_HDR_SIZE ++ r.serialize

/-- Raw::read_from_stream (response_header.rs lines 84-99) over a pure
stream: returns the outcome together with the remaining stream.
Modelled from the spec where src is silent: a short read propagates
as an I/O failure (ConnectionError) and leaves the remaining stream
unspecified (modelled as empty). -/
def Raw.read_from_stream (s : List Nat) : Except ResponseStatus Raw × List Nat :=
  if 4 ≤ s.length then
    let magic_number := leToNat (s.take 4)
    let s1 := s.drop 4
    if 2 ≤ s1.length then
      let hdr_size := leToNat (s1.take 2)
      let s2 := s1.drop 2
      if magic_number ≠ MAGIC_NUMBER ∨ hdr_size ≠ RESPONSE_HDR_SIZE then
        (.error .InvalidHeader, s2)
      else if hdr_size ≤ s2.length then
        match Raw.deserialize (s2.take hdr_size) with
        | none => (.error .InvalidEncoding, s2.drop hdr_size)
        | some raw_response =>
          if raw_response.version_maj ≠ 1 ∨ raw_response.version_min ≠ 0 then
            (.error .WireProtocolVersionNotSupported, s2.drop hdr_size)
          else
            (.ok raw_response, s2.drop hdr_size)
      else (.error .ConnectionError, [])
    else (.error .ConnectionError, [])
  else (.error .ConnectionError, [])

/-! ## Helper lemmas -/

theorem natToLE_length (w n : Nat) : (natToLE w n).length = w := by
  induction w generalizing n with
  | zero => rfl
  | succ k ih => simp [natToLE, ih]

theorem leToNat_natToLE (w n : Nat) : leToNat (natToLE w n) = n % 256 ^ w := by
  induction w generalizing n with
  | zero => simp [natToLE, leToNat, Nat.mod_one]
  | succ k ih =>
    rw [natToLE, leToNat, ih, Nat.mod_mod_of_dvd n dvd_rfl, pow_succ', Nat.mod_mul]

theorem provider_from_to_u8 (p : ProviderID) :
    ProviderID.from_u8 (ProviderID.to_u8 p) = some p := by
  cases p <;> rfl

theorem body_type_from_to_u8 (b : BodyType) :
    BodyType.from_u8 (BodyType.to_u8 b) = some b := by
  cases b <;> rfl

theorem opcode_from_to_u16 (o : Opcode) :
    Opcode.from_u16 (Opcode.to_u16 o) = some o := by
  cases o <;> rfl

theorem status_from_to_u16 (s : ResponseStatus) :
    ResponseStatus.from_u16 (ResponseStatus.to_u16 s) = some s := by
  cases s <;> rfl

theorem provider_to_u8_lt (p : ProviderID) : ProviderID.to_u8 p < 256 := by
  cases p <;> decide

theorem body_type_to_u8_lt (b : BodyType) : BodyType.to_u8 b < 256 := by
  cases b <;> decide

theorem opcode_to_u16_lt (o : Opcode) : Opcode.to_u16 o < 2 ^ 16 := by
  cases o <;> decide

theorem status_to_u16_lt (s : ResponseStatus) : ResponseStatus.to_u16 s < 2 ^ 16 := by
  cases s <;> decide

theorem Raw.serialize_length (r : Raw) : r.serialize.length = RESPONSE_HDR_SIZE := by
  simp [Raw.serialize, natToLE_length, RESPONSE_HDR_SIZE]

/-- Deserializing a serialized Raw header recovers every field,
reduced modulo its wire width. -/
theorem Raw.deserialize_serialize (r : Raw) :
    Raw.deserialize r.serialize = some
      { version_maj := r.version_maj % 256
        version_min := r.version_min % 256
        provider := r.provider % 256
        session := r.session % 2 ^ 64
        content_type := r.content_type % 256
        body_len := r.body_len % 2 ^ 32
        opcode := r.opcode % 2 ^ 16
        status := r.status % 2 ^ 16 } := by
  have t0 : r.serialize.take 1 = natToLE 1 r.version_maj := by
    rw [Raw.serialize]; exact List.take_left' (natToLE_length 1 _)
  have d1 : r.serialize.drop 1 =
      natToLE 1 r.version_min ++ (natToLE 1 r.provider ++ (natToLE 8 r.session ++
        (natToLE 1 r.content_type ++ (natToLE 4 r.body_len ++
          (natToLE 2 r.opcode ++ natToLE 2 r.status))))) := by
    rw [Raw.serialize]; exact List.drop_left' (natToLE_length 1 _)
  have t1 : (r.serialize.drop 1).take 1 = natToLE 1 r.version_min := by
    rw [d1]; exact List.take_left' (natToLE_length 1 _)
  have d2 : r.serialize.drop 2 =
      natToLE 1 r.provider ++ (natToLE 8 r.session ++ (natToLE 1 r.content_type ++
        (natToLE 4 r.body_len ++ (natToLE 2 r.opcode ++ natToLE 2 r.status)))) := by
    rw [show (2 : Nat) = 1 + 1 from rfl, ← List.drop_drop, d1]
    exact List.drop_left' (natToLE_length 1 _)
  have t2 : (r.serialize.drop 2).take 1 = natToLE 1 r.provider := by
    rw [d2]; exact List.take_left' (natToLE_length 1 _)
  have d3 : r.serialize.drop 3 =
      natToLE 8 r.session ++ (natToLE 1 r.content_type ++ (natToLE 4 r.body_len ++
        (natToLE 2 r.opcode ++ natToLE 2 r.status))) := by
    rw [show (3 : Nat) = 2 + 1 from rfl, ← List.drop_drop, d2]
    exact List.drop_left' (natToLE_length 1 _)
  have t3 : (r.serialize.drop 3).take 8 = natToLE 8 r.session := by
    rw [d3]; exact List.take_left' (natToLE_length 8 _)
  have d11 : r.serialize.drop 11 =
      natToLE 1 r.content_type ++ (natToLE 4 r.body_len ++
        (natToLE 2 r.opcode ++ natToLE 2 r.status)) := by
    rw [show (11 : Nat) = 3 + 8 from rfl, ← List.drop_drop, d3]
    exact List.drop_left' (natToLE_length 8 _)
  have t4 : (r.serialize.drop 11).take 1 = natToLE 1 r.content_type := by
    rw [d11]; exact List.take_left' (natToLE_length 1 _)
  have d12 : r.serialize.drop 12 =
      natToLE 4 r.body_len ++ (natToLE 2 r.opcode ++ natToLE 2 r.status) := by
    rw [show (12 : Nat) = 11 + 1 from rfl, ← List.drop_drop, d11]
    exact List.drop_left' (natToLE_length 1 _)
  have t5 : (r.serialize.drop 12).take 4 = natToLE 4 r.body_len := by
    rw [d12]; exact List.take_left' (natToLE_length 4 _)
  have d16 : r.serialize.drop 16 = natToLE 2 r.opcode ++ natToLE 2 r.status := by
    rw [show (16 : Nat) = 12 + 4 from rfl, ← List.drop_drop, d12]
    exact List.drop_left' (natToLE_length 4 _)
  have t6 : (r.serialize.drop 16).take 2 = natToLE 2 r.opcode := by
    rw [d16]; exact List.take_left' (natToLE_length 2 _)
  have d18 : r.serialize.drop 18 = natToLE 2 r.status := by
    rw [show (18 : Nat) = 16 + 2 from rfl, ← List.drop_drop, d16]
    exact List.drop_left' (natToLE_length 2 _)
  have t7 : (r.serialize.drop 18).take 2 = natToLE 2 r.status := by
    rw [d18]; exact List.take_of_length_le (by rw [natToLE_length])
  simp only [Raw.deserialize, r.serialize_length, if_pos, t0, t1, t2, t3, t4, t5, t6, t7,
    leToNat_natToLE]
  norm_num

/-- Reading a frame consisting of the magic constant, the header-size
constant and a 20-byte body consumes the whole frame, deserializes
the body and applies the version check. -/
theorem read_from_stream_frame (body : List Nat) (hb : body.length = RESPONSE_HDR_SIZE) :
    Raw.read_from_stream (natToLE 4 MAGIC_NUMBER ++ natToLE 2 RESPONSE_HDR_SIZE ++ body) =
      match Raw.deserialize body with
      | none => (.error .InvalidEncoding, [])
      | some raw_response =>
        if raw_response.version_maj ≠ 1 ∨ raw_response.version_min ≠ 0 then
          (.error .WireProtocolVersionNotSupported, [])
        else
          (.ok raw_response, []) := by
  set s := natToLE 4 MAGIC_NUMBER ++ natToLE 2 RESPONSE_HDR_SIZE ++ body with hsdef
  have hlen : s.length = 26 := by
    simp [hsdef, natToLE_length, hb, RESPONSE_HDR_SIZE]
  have ht4 : s.take 4 = natToLE 4 MAGIC_NUMBER := by
    rw [hsdef, List.append_assoc]; exact List.take_left' (natToLE_length 4 _)
  have hd4 : s.drop 4 = natToLE 2 RESPONSE_HDR_SIZE ++ body := by
    rw [hsdef, List.append_assoc]; exact List.drop_left' (natToLE_length 4 _)
  have ht2 : (s.drop 4).take 2 = natToLE 2 RESPONSE_HDR_SIZE := by
    rw [hd4]; exact List.take_left' (natToLE_length 2 _)
  have hd2 : (s.drop 4).drop 2 = body := by
    rw [hd4]; exact List.drop_left' (natToLE_length 2 _)
  have hmagic : leToNat (s.take 4) = MAGIC_NUMBER := by
    rw [ht4, leToNat_natToLE]; decide
  have hhdr : leToNat ((s.drop 4).take 2) = RESPONSE_HDR_SIZE := by
    rw [ht2, leToNat_natToLE]; decide
  have htbody : ((s.drop 4).drop 2).take RESPONSE_HDR_SIZE = body := by
    rw [hd2]; exact List.take_of_length_le (le_of_eq hb)
  have hdbody : ((s.drop 4).drop 2).drop RESPONSE_HDR_SIZE = [] := by
    rw [hd2]; exact List.drop_eq_nil_of_le (le_of_eq hb)
  rw [Raw.read_from_stream]
  rw [if_pos (by rw [hlen]; decide)]
  simp only
  rw [if_pos (by simp [hd4, natToLE_length, hb, RESPONSE_HDR_SIZE])]
  simp only [hmagic, hhdr]
  rw [if_neg (by simp)]
  rw [if_pos (by rw [hd2, hb])]
  rw [htbody, hdbody]

/-- Deserializing a serialized Raw header whose fields are all within
their wire widths recovers the header exactly. -/
theorem Raw.deserialize_serialize_of_bounds (r : Raw)
    (h1 : r.version_maj < 256) (h2 : r.version_min < 256) (h3 : r.provider < 256)
    (h4 : r.session < 2 ^ 64) (h5 : r.content_type < 256) (h6 : r.body_len < 2 ^ 32)
    (h7 : r.opcode < 2 ^ 16) (h8 : r.status < 2 ^ 16) :
    Raw.deserialize r.serialize = some r := by
  rcases r with ⟨a, b, c, d, e, f, g, h⟩
  rw [Raw.deserialize_serialize]
  simp_all [Nat.mod_eq_of_lt]

/-! ## Claims about the Raw/native header conversions -/

/-- Claim C5: the Raw-to-native conversion fails whenever any of the
provider, content_type, opcode or status codes is not a defined
variant (it succeeds exactly when all four decode, never substituting
a default), and when several fields are invalid the error reported is
the one for the first invalid field in the fixed order provider,
content type, opcode, status. -/
theorem try_from_error_priority (raw : Raw) :
    ((ResponseHeader.try_from raw).isOk ↔
      (ProviderID.from_u8 raw.provider).isSome ∧
        (BodyType.from_u8 raw.content_type).isSome ∧
        (Opcode.from_u16 raw.opcode).isSome ∧
        (ResponseStatus.from_u16 raw.status).isSome) ∧
    (ProviderID.from_u8 raw.provider = none →
      ResponseHeader.try_from raw = .error .ProviderDoesNotExist) ∧
    ((ProviderID.from_u8 raw.provider).isSome →
      BodyType.from_u8 raw.content_type = none →
      ResponseHeader.try_from raw = .error .ContentTypeNotSupported) ∧
    ((ProviderID.from_u8 raw.provider).isSome →
      (BodyType.from_u8 raw.content_type).isSome →
      Opcode.from_u16 raw.opcode = none →
      ResponseHeader.try_from raw = .error .OpcodeDoesNotExist) ∧
    ((ProviderID.from_u8 raw.provider).isSome →
      (BodyType.from_u8 raw.content_type).isSome →
      (Opcode.from_u16 raw.opcode).isSome →
      ResponseStatus.from_u16 raw.status = none →
      ResponseHeader.try_from raw = .error .InvalidEncoding) := by
  unfold ResponseHeader.try_from
  rcases hp : ProviderID.from_u8 raw.provider with _ | p <;>
    rcases hc : BodyType.from_u8 raw.content_type with _ | ct <;>
      rcases ho : Opcode.from_u16 raw.opcode with _ | oc <;>
        rcases hs : ResponseStatus.from_u16 raw.status with _ | st <;>
          simp [Except.isOk, Except.toBool]

/-- Claim C5 witness: a Raw header with every enumeration field
invalid reports the provider error; fixing provider alone moves the
error to content type; and so on down the fixed order. -/
theorem try_from_error_priority_witness :
    ResponseHeader.try_from ⟨1, 0, 99, 0, 99, 0, 999, 999⟩ =
        .error .ProviderDoesNotExist ∧
      ResponseHeader.try_from ⟨1, 0, 0, 0, 99, 0, 999, 999⟩ =
        .error .ContentTypeNotSupported ∧
      ResponseHeader.try_from ⟨1, 0, 0, 0, 0, 0, 999, 999⟩ =
        .error .OpcodeDoesNotExist ∧
      ResponseHeader.try_from ⟨1, 0, 0, 0, 0, 0, 1, 999⟩ =
        .error .InvalidEncoding :=
  ⟨(try_from_error_priority _).2.1 rfl,
    (try_from_error_priority _).2.2.1 (by decide) rfl,
    (try_from_error_priority _).2.2.2.1 (by decide) (by decide) rfl,
    (try_from_error_priority _).2.2.2.2 (by decide) (by decide) (by decide) rfl⟩

/-- Claim C7: the native-to-raw conversion is total (it is a plain
function on every native header), maps each enumeration variant to
its unique wire code (the reverse lookup recovers the variant), and
always leaves body_len at the sentinel value 0. -/
theorem native_to_raw_sentinel (h : ResponseHeader) :
    (Raw.from_native h).body_len = 0 ∧
      (Raw.from_native h).provider = ProviderID.to_u8 h.provider ∧
      (Raw.from_native h).content_type = BodyType.to_u8 h.content_type ∧
      (Raw.from_native h).opcode = Opcode.to_u16 h.opcode ∧
      (Raw.from_native h).status = ResponseStatus.to_u16 h.status ∧
      ProviderID.from_u8 ((Raw.from_native h).provider) = some h.provider ∧
      BodyType.from_u8 ((Raw.from_native h).content_type) = some h.content_type ∧
      Opcode.from_u16 ((Raw.from_native h).opcode) = some h.opcode ∧
      ResponseStatus.from_u16 ((Raw.from_native h).status) = some h.status :=
  ⟨rfl, rfl, rfl, rfl, rfl, provider_from_to_u8 h.provider, body_type_from_to_u8 h.content_type,
    opcode_from_to_u16 h.opcode, status_from_to_u16 h.status⟩

/-- Claim C9: the Raw-to-native conversion performs no version
validation: whenever the four enumeration codes decode, it succeeds
for every value of version_maj and version_min, copying both (and the
session) verbatim into the native header. -/
theorem try_from_no_version_validation (raw : Raw) (p : ProviderID) (ct : BodyType)
    (oc : Opcode) (st : ResponseStatus)
    (hp : ProviderID.from_u8 raw.provider = some p)
    (hc : BodyType.from_u8 raw.content_type = some ct)
    (ho : Opcode.from_u16 raw.opcode = some oc)
    (hs : ResponseStatus.from_u16 raw.status = some st) :
    ResponseHeader.try_from raw =
      .ok { version_maj := raw.version_maj
            version_min := raw.version_min
            provider := p
            session := raw.session
            content_type := ct
            opcode := oc
            status := st } := by
  unfold ResponseHeader.try_from
  rw [hp, hc, ho, hs]

/-- Claim C9 witness: a Raw header carrying the unsupported version
(9, 7) converts successfully through TryFrom alone, producing a
native header with version fields 9 and 7. -/
theorem try_from_no_version_validation_witness :
    ResponseHeader.try_from ⟨9, 7, 0, 5, 0, 44, 1, 0⟩ =
      .ok { version_maj := 9
            version_min := 7
            provider := ProviderID.Core
            session := 5
            content_type := BodyType.Protobuf
            opcode := Opcode.Ping
            status := ResponseStatus.Success } :=
  try_from_no_version_validation _ _ _ _ _ rfl rfl rfl rfl

/-- Claim C10: when provider, content type and opcode codes are all
defined variants but the status code is not recognized, the
Raw-to-native conversion fails with InvalidEncoding, the very error
constructor also used for body parse failures (there is no dedicated
unknown-status error). -/
theorem unknown_status_invalid_encoding (raw : Raw)
    (hp : (ProviderID.from_u8 raw.provider).isSome)
    (hc : (BodyType.from_u8 raw.content_type).isSome)
    (ho : (Opcode.from_u16 raw.opcode).isSome)
    (hs : ResponseStatus.from_u16 raw.status = none) :
    ResponseHeader.try_from raw = .error .InvalidEncoding := by
  unfold ResponseHeader.try_from
  rcases hp' : ProviderID.from_u8 raw.provider with _ | p
  · rw [hp'] at hp; exact absurd hp (by simp)
  rcases hc' : BodyType.from_u8 raw.content_type with _ | ct
  · rw [hc'] at hc; exact absurd hc (by simp)
  rcases ho' : Opcode.from_u16 raw.opcode with _ | oc
  · rw [ho'] at ho; exact absurd ho (by simp)
  rw [hs]

/-- Claim C10 witness: a Raw header with valid provider, content type
and opcode but status code 777 fails with InvalidEncoding. -/
theorem unknown_status_invalid_encoding_witness :
    ResponseHeader.try_from ⟨1, 0, 0, 0, 0, 0, 1, 777⟩ = .error .InvalidEncoding :=
  unknown_status_invalid_encoding _ (by decide) (by decide) (by decide) rfl

/-- Claim C1: for every valid native response header H (version
fields (1,0), every enumeration field a defined variant) and every
body length L, converting H to Raw, setting body_len to L, writing
the frame with write_to_stream and reading it back with
read_from_stream succeeds, the Raw read back converts to a native
header equal to H in every field, and its body_len equals L. -/
theorem response_header_write_read_roundtrip (H : ResponseHeader) (L : Nat)
    (hv : H.version_maj = 1) (hm : H.version_min = 0)
    (hs : H.session < 2 ^ 64) (hL : L < 2 ^ 32) :
    ∃ r : Raw,
      Raw.read_from_stream (Raw.write_to_stream { Raw.from_native H with body_len := L }) =
          (.ok r, []) ∧
        ResponseHeader.try_from r = .ok H ∧ r.body_len = L := by
  refine ⟨{ Raw.from_native H with body_len := L }, ?_, ?_, rfl⟩
  · rw [Raw.write_to_stream, read_from_stream_frame _ (Raw.serialize_length _),
      Raw.deserialize_serialize_of_bounds _ (by simp [Raw.from_native, hv])
        (by simp [Raw.from_native, hm]) (provider_to_u8_lt H.provider) hs
        (body_type_to_u8_lt H.content_type) hL (opcode_to_u16_lt H.opcode)
        (status_to_u16_lt H.status)]
    simp [Raw.from_native, hv, hm]
  · rw [try_from_no_version_validation _ H.provider H.content_type H.opcode H.status
      (provider_from_to_u8 H.provider) (body_type_from_to_u8 H.content_type)
      (opcode_from_to_u16 H.opcode) (status_from_to_u16 H.status)]
    simp [Raw.from_native]

/-- Claim C1 witness: the round trip evaluated on the concrete header
(version 1.0, Tpm provider, session 305419896, protobuf content,
ImportKey opcode, Success status) with body length 77. -/
theorem response_header_write_read_roundtrip_witness :
    ∃ r : Raw,
      Raw.read_from_stream (Raw.write_to_stream
          { Raw.from_native
              { version_maj := 1
                version_min := 0
                provider := ProviderID.Tpm
                session := 305419896
                content_type := BodyType.Protobuf
                opcode := Opcode.ImportKey
                status := ResponseStatus.Success } with body_len := 77 }) =
          (.ok r, []) ∧
        ResponseHeader.try_from r =
            .ok { version_maj := 1
                  version_min := 0
                  provider := ProviderID.Tpm
                  session := 305419896
                  content_type := BodyType.Protobuf
                  opcode := Opcode.ImportKey
                  status := ResponseStatus.Success } ∧
          r.body_len = 77 :=
  response_header_write_read_roundtrip _ 77 rfl rfl (by decide) (by decide)

/-- When the stream holds at least the 6 bytes of the magic-number
and header-size fields and either decoded value mismatches its
constant, read_from_stream stops with InvalidHeader having consumed
exactly those 6 bytes. -/
theorem read_stream_bad_prefix (s : List Nat) (h6 : 6 ≤ s.length)
    (hbad : leToNat (s.take 4) ≠ MAGIC_NUMBER ∨
      leToNat ((s.drop 4).take 2) ≠ RESPONSE_HDR_SIZE) :
    Raw.read_from_stream s = (.error .InvalidHeader, s.drop 6) := by
  rw [Raw.read_from_stream]
  rw [if_pos (by omega)]
  simp only
  rw [if_pos (by simp only [List.length_drop]; omega)]
  rw [if_pos hbad, List.drop_drop]

/-- Claim C3 counterexample: the stream consisting of exactly four
zero bytes has first 4 bytes all zero (not the magic constant), yet
read_from_stream does not fail with InvalidHeader: the read of the
header-size field hits the end of the stream first and the resulting
I/O failure propagates. -/
theorem read_four_zero_bytes_not_invalid_header :
    Raw.read_from_stream [0, 0, 0, 0] = (.error .ConnectionError, []) ∧
      (Raw.read_from_stream [0, 0, 0, 0]).1 ≠ .error .InvalidHeader := by
  refine ⟨rfl, ?_⟩
  intro h
  exact absurd (Except.error.inj h) (by decide)

/-- Claim C3 (amended): for every input stream holding at least the 6
bytes of the magic-number and header-size fields, read_from_stream
fails with InvalidHeader whenever the first 4 bytes are not the magic
constant or the following 2-byte header-size field does not equal the
expected constant, regardless of any subsequent bytes; it consumes
exactly the 6 bytes needed to detect the mismatch and interprets no
further header bytes. -/
theorem read_bad_magic_or_size_invalid_header (s : List Nat) (h6 : 6 ≤ s.length)
    (hbad : leToNat (s.take 4) ≠ MAGIC_NUMBER ∨
      leToNat ((s.drop 4).take 2) ≠ RESPONSE_HDR_SIZE) :
    Raw.read_from_stream s = (.error .InvalidHeader, s.drop 6) :=
  read_stream_bad_prefix s h6 hbad

/-- Claim C3 witness: an 8-byte stream whose first 4 bytes are all
zero is rejected with InvalidHeader, leaving the last 2 bytes
unconsumed. -/
theorem read_bad_magic_or_size_invalid_header_witness :
    Raw.read_from_stream [0, 0, 0, 0, 0, 0, 9, 9] = (.error .InvalidHeader, [9, 9]) :=
  read_bad_magic_or_size_invalid_header [0, 0, 0, 0, 0, 0, 9, 9] (by decide)
    (Or.inl (by decide))

/-- Claim C4: read_from_stream fails with
WireProtocolVersionNotSupported on every structurally valid frame
(magic and header-size fields correct, full header present) whose
decoded version fields are not (1, 0); and the version check occurs
only after the structural parse succeeds: every stream of at least 6
bytes whose magic field mismatches — whatever version bytes follow —
reports InvalidHeader, never WireProtocolVersionNotSupported. -/
theorem version_check_after_structural_parse :
    (∀ body : List Nat, body.length = RESPONSE_HDR_SIZE → ∀ raw : Raw,
        Raw.deserialize body = some raw →
        raw.version_maj ≠ 1 ∨ raw.version_min ≠ 0 →
        Raw.read_from_stream
            (natToLE 4 MAGIC_NUMBER ++ natToLE 2 RESPONSE_HDR_SIZE ++ body) =
          (.error .WireProtocolVersionNotSupported, [])) ∧
      ∀ s : List Nat, 6 ≤ s.length → leToNat (s.take 4) ≠ MAGIC_NUMBER →
        Raw.read_from_stream s = (.error .InvalidHeader, s.drop 6) := by
  constructor
  · intro body hb raw hdes hver
    rw [read_from_stream_frame body hb, hdes]
    simp only [if_pos hver]
  · intro s h6 hmag
    exact read_stream_bad_prefix s h6 (Or.inl hmag)

/-- Claim C4 witness: the frame carrying a structurally valid header
with version (2, 0) is rejected with WireProtocolVersionNotSupported,
while a 6-byte stream with both a bad magic field and bad version
bytes is rejected with InvalidHeader. -/
theorem version_check_after_structural_parse_witness :
    Raw.read_from_stream
        (natToLE 4 MAGIC_NUMBER ++ natToLE 2 RESPONSE_HDR_SIZE ++
          (⟨2, 0, 0, 0, 0, 0, 1, 0⟩ : Raw).serialize) =
        (.error .WireProtocolVersionNotSupported, []) ∧
      Raw.read_from_stream [9, 9, 9, 9, 2, 0] = (.error .InvalidHeader, []) :=
  ⟨version_check_after_structural_parse.1 _ (Raw.serialize_length _) ⟨2, 0, 0, 0, 0, 0, 1, 0⟩
      (by decide) (Or.inl (by decide)),
    version_check_after_structural_parse.2 [9, 9, 9, 9, 2, 0] (by decide) (by decide)⟩

/-! ## Import-key operation and its protobuf converter -/

namespace ImportKey

/-- Modelled from the spec: hash-algorithm enumeration
(crate::operations::algorithm::Hash is not under src/); exemplar
variants taken from the converter tests. -/
inductive Hash
  | Sha1
  | Sha256
  | Sha512
deriving DecidableEq, Repr

/-- Modelled from the spec: the wire i32 code of a Hash variant. -/
def Hash.to_i32 : Hash → Nat
  | .Sha1 => 1
  | .Sha256 => 2
  | .Sha512 => 3

/-- Modelled from the spec: reverse lookup of a Hash wire code,
failing on unrecognized codes. -/
def Hash.from_i32 : Nat → Option Hash
  | 1 => some .Sha1
  | 2 => some .Sha256
  | 3 => some .Sha512
  | _ => none

/-- Modelled from the spec: asymmetric-signature algorithm family
(crate::operations::algorithm is not under src/). -/
inductive AsymmetricSignature
  | RsaPkcs1v15Sign (hash_alg : Hash)
  | RsaPss (hash_alg : Hash)
deriving DecidableEq, Repr

/-- Modelled from the spec: the algorithm tagged union; the converter
tests exercise the asymmetric-signature arm. -/
inductive Algorithm
  | AsymmetricSignature (alg : ImportKey.AsymmetricSignature)
deriving DecidableEq, Repr

/-- Modelled from the spec: key usage flags
(crate::operations::key_attributes::UsageFlags is not under src/);
the Rust field named export is written export_ because export is a
reserved word here. -/
structure UsageFlags where
  export_ : Bool
  copy : Bool
  cache : Bool
  encrypt : Bool
  decrypt : Bool
  sign_message : Bool
  verify_message : Bool
  sign_hash : Bool
  verify_hash : Bool
  derive : Bool
deriving DecidableEq, Repr

/-- Modelled from the spec: key type enumeration. -/
inductive KeyType
  | RsaKeyPair
  | RsaPublicKey
deriving DecidableEq, Repr

/-- Modelled from the spec: key policy (usage flags plus algorithm). -/
structure KeyPolicy where
  key_usage_flags : UsageFlags
  key_algorithm : Algorithm
deriving DecidableEq, Repr

/-- Modelled from the spec: native key attributes
(crate::operations::key_attributes::KeyAttributes is not under
src/). -/
structure KeyAttributes where
  key_type : KeyType
  key_bits : Nat
  key_policy : KeyPolicy
deriving DecidableEq, Repr

/-- Modelled from the spec: the generated protobuf KeyType message, a
wrapper holding an optional variant sub-message. -/
structure KeyTypeProto where
  variant : Option KeyType
deriving DecidableEq, Repr

/-- Modelled from the spec: the generated protobuf
asymmetric-signature variant; the hash algorithm travels as a raw i32
code. -/
inductive AsymmetricSignatureVariantProto
  | RsaPkcs1v15Sign (hash_alg : Nat)
  | RsaPss (hash_alg : Nat)
deriving DecidableEq, Repr

/-- Modelled from the spec: the generated protobuf
AsymmetricSignature message with optional variant. -/
structure AsymmetricSignatureProto where
  variant : Option AsymmetricSignatureVariantProto
deriving DecidableEq, Repr

/-- Modelled from the spec: the generated protobuf Algorithm variant
union. -/
inductive AlgorithmVariantProto
  | AsymmetricSignature (alg : AsymmetricSignatureProto)
deriving DecidableEq, Repr

/-- Modelled from the spec: the generated protobuf Algorithm message
with optional variant. -/
structure AlgorithmProto where
  variant : Option AlgorithmVariantProto
deriving DecidableEq, Repr

/-- Modelled from the spec: the generated protobuf UsageFlags message
(all fields plain bools). -/
structure UsageFlagsProto where
  export_ : Bool
  copy : Bool
  cache : Bool
  encrypt : Bool
  decrypt : Bool
  sign_message : Bool
  verify_message : Bool
  sign_hash : Bool
  verify_hash : Bool
  derive : Bool
deriving DecidableEq, Repr

/-- Modelled from the spec: the generated protobuf KeyPolicy message;
both sub-messages are optional on the wire. -/
structure KeyPolicyProto where
  key_usage_flags : Option UsageFlagsProto
  key_algorithm : Option AlgorithmProto
deriving DecidableEq, Repr

/-- Modelled from the spec: the generated protobuf KeyAttributes
message; key_type and key_policy are optional on the wire. -/
structure KeyAttributesProto where
  key_type : Option KeyTypeProto
  key_bits : Nat
  key_policy : Option KeyPolicyProto
deriving DecidableEq, Repr

end ImportKey

end ParsecInterface

namespace ParsecInterface

namespace ImportKey

/-- Modelled from the spec: UsageFlags native-to-proto conversion
(field-by-field copy). -/
def UsageFlags.to_proto (f : UsageFlags) : UsageFlagsProto :=
  { export_ := f.export_
    copy := f.copy
    cache := f.cache
    encrypt := f.encrypt
    decrypt := f.decrypt
    sign_message := f.sign_message
    verify_message := f.verify_message
    sign_hash := f.sign_hash
    verify_hash := f.verify_hash
    derive := f.derive }

/-- Modelled from the spec: UsageFlags proto-to-native conversion
(field-by-field copy, total). -/
def UsageFlags.from_proto (f : UsageFlagsProto) : UsageFlags :=
  { export_ := f.export_
    copy := f.copy
    cache := f.cache
    encrypt := f.encrypt
    decrypt := f.decrypt
    sign_message := f.sign_message
    verify_message := f.verify_message
    sign_hash := f.sign_hash
    verify_hash := f.verify_hash
    derive := f.derive }

/-- Modelled from the spec: asymmetric-signature native-to-proto
conversion. -/
def AsymmetricSignature.to_proto : AsymmetricSignature → AsymmetricSignatureProto
  | .RsaPkcs1v15Sign h => { variant := some (.RsaPkcs1v15Sign (Hash.to_i32 h)) }
  | .RsaPss h => { variant := some (.RsaPss (Hash.to_i32 h)) }

/-- Modelled from the spec: asymmetric-signature proto-to-native
conversion; a missing variant or unrecognized hash code fails with
InvalidEncoding. -/
def AsymmetricSignature.try_from_proto (p : AsymmetricSignatureProto) :
    Except ResponseStatus AsymmetricSignature :=
  match p.variant with
  | none => .error .InvalidEncoding
  | some (.RsaPkcs1v15Sign code) =>
    match Hash.from_i32 code with
    | none => .error .InvalidEncoding
    | some h => .ok (.RsaPkcs1v15Sign h)
  | some (.RsaPss code) =>
    match Hash.from_i32 code with
    | none => .error .InvalidEncoding
    | some h => .ok (.RsaPss h)

/-- Modelled from the spec: algorithm native-to-proto conversion. -/
def Algorithm.to_proto : Algorithm → AlgorithmProto
  | .AsymmetricSignature alg => { variant := some (.AsymmetricSignature alg.to_proto) }

/-- Modelled from the spec: algorithm proto-to-native conversion; a
missing variant fails with InvalidEncoding. -/
def Algorithm.try_from_proto (p : AlgorithmProto) : Except ResponseStatus Algorithm :=
  match p.variant with
  | none => .error .InvalidEncoding
  | some (.AsymmetricSignature alg) =>
    match AsymmetricSignature.try_from_proto alg with
    | .error e => .error e
    | .ok a => .ok (.AsymmetricSignature a)

/-- Modelled from the spec: key-policy proto-to-native conversion;
each required-but-optional sub-message fails with InvalidEncoding
when absent. -/
def KeyPolicy.try_from_proto (p : KeyPolicyProto) : Except ResponseStatus KeyPolicy :=
  match p.key_usage_flags with
  | none => .error .InvalidEncoding
  | some flags =>
    match p.key_algorithm with
    | none => .error .InvalidEncoding
    | some algp =>
      match Algorithm.try_from_proto algp with
      | .error e => .error e
      | .ok alg => .ok { key_usage_flags := UsageFlags.from_proto flags, key_algorithm := alg }

/-- Modelled from the spec: key-policy native-to-proto conversion. -/
def KeyPolicy.to_proto (p : KeyPolicy) : KeyPolicyProto :=
  { key_usage_flags := some p.key_usage_flags.to_proto
    key_algorithm := some p.key_algorithm.to_proto }

/-- Modelled from the spec: key-attributes proto-to-native conversion
(TryFrom of KeyAttributesProto, from the missing
convert_key_attributes.rs); required sub-messages absent from the
wire fail with InvalidEncoding. -/
def KeyAttributes.try_from_proto (p : KeyAttributesProto) :
    Except ResponseStatus KeyAttributes :=
  match p.key_type with
  | none => .error .InvalidEncoding
  | some ktp =>
    match ktp.variant with
    | none => .error .InvalidEncoding
    | some kt =>
      match p.key_policy with
      | none => .error .InvalidEncoding
      | some kpp =>
        match KeyPolicy.try_from_proto kpp with
        | .error e => .error e
        | .ok kp => .ok { key_type := kt, key_bits := p.key_bits, key_policy := kp }

/-- Modelled from the spec: key-attributes native-to-proto conversion
(TryFrom of KeyAttributes, fallible in type but total in fact). -/
def KeyAttributes.try_to_proto (a : KeyAttributes) :
    Except ResponseStatus KeyAttributesProto :=
  .ok { key_type := some { variant := some a.key_type }
        key_bits := a.key_bits
        key_policy := some a.key_policy.to_proto }

/-- The native import-key Operation
(crate::operations::import_key::Operation); its fields key_name,
attributes and data are those the converter in src reads and
writes. -/
structure Operation where
  key_name : String
  attributes : KeyAttributes
  data : List Nat
deriving DecidableEq, Repr

/-- Modelled from the spec: the generated protobuf import-key
Operation message; the attributes sub-message is optional on the
wire. -/
structure OperationProto where
  key_name : String
  attributes : Option KeyAttributesProto
  data : List Nat
deriving DecidableEq, Repr

/-- The native import-key Result, an empty structure
(crate::operations::import_key::Result). -/
structure Result where
deriving DecidableEq, Repr

/-- Modelled from the spec: the generated protobuf import-key Result
message, an empty message. -/
structure ResultProto where
deriving DecidableEq, Repr

/-- impl TryFrom of OperationProto for Operation
(convert_import_key.rs lines 21-37): a missing attributes
sub-message fails with InvalidEncoding, otherwise the attributes are
converted and key_name and data are moved across. -/
def Operation.try_from (proto_op : OperationProto) : Except ResponseStatus Operation :=
  match proto_op.attributes with
  | none => .error .InvalidEncoding
  | some attrs_proto =>
    match KeyAttributes.try_from_proto attrs_proto with
    | .error e => .error e
    | .ok attrs =>
      .ok { key_name := proto_op.key_name, attributes := attrs, data := proto_op.data }

/-- impl TryFrom of Operation for OperationProto
(convert_import_key.rs lines 39-49). -/
def OperationProto.try_from (op : Operation) : Except ResponseStatus OperationProto :=
  match KeyAttributes.try_to_proto op.attributes with
  | .error e => .error e
  | .ok attrs_proto =>
    .ok { key_name := op.key_name, attributes := some attrs_proto, data := op.data }

/-- impl TryFrom of ResultProto for Result
(convert_import_key.rs lines 51-57). -/
def Result.try_from (_ : ResultProto) : Except ResponseStatus Result := .ok {}

/-- impl TryFrom of Result for ResultProto
(convert_import_key.rs lines 59-65). -/
def ResultProto.try_from (_ : Result) : Except ResponseStatus ResultProto := .ok {}

/-- The key attributes built by the converter tests (get_key_attrs in
convert_import_key.rs lines 147-171). -/
def test_key_attributes : KeyAttributes :=
  { key_type := .RsaKeyPair
    key_bits := 1024
    key_policy :=
      { key_usage_flags :=
          { export_ := true
            copy := true
            cache := true
            encrypt := true
            decrypt := true
            sign_message := true
            verify_message := true
            sign_hash := true
            verify_hash := true
            derive := true }
        key_algorithm := .AsymmetricSignature (.RsaPkcs1v15Sign .Sha1) } }

/-- The protobuf key attributes built by the converter tests
(get_key_attrs_proto in convert_import_key.rs lines 173-201). -/
def test_key_attributes_proto : KeyAttributesProto :=
  { key_type := some { variant := some .RsaKeyPair }
    key_bits := 1024
    key_policy := some
      { key_usage_flags := some
          { export_ := true
            copy := true
            cache := true
            encrypt := true
            decrypt := true
            sign_message := true
            verify_message := true
            sign_hash := true
            verify_hash := true
            derive := true }
        key_algorithm := some
          { variant := some (.AsymmetricSignature
              { variant := some (.RsaPkcs1v15Sign 1) }) } } }

theorem hash_from_to_i32 (h : Hash) : Hash.from_i32 (Hash.to_i32 h) = some h := by
  cases h <;> rfl

theorem asym_sig_proto_roundtrip (s : AsymmetricSignature) :
    AsymmetricSignature.try_from_proto s.to_proto = .ok s := by
  cases s <;> simp [AsymmetricSignature.to_proto, AsymmetricSignature.try_from_proto,
    hash_from_to_i32]

theorem algorithm_proto_roundtrip (a : Algorithm) :
    Algorithm.try_from_proto a.to_proto = .ok a := by
  cases a
  simp [Algorithm.to_proto, Algorithm.try_from_proto, asym_sig_proto_roundtrip]

theorem usage_flags_proto_roundtrip (f : UsageFlags) :
    UsageFlags.from_proto f.to_proto = f := rfl

theorem key_policy_proto_roundtrip (p : KeyPolicy) :
    KeyPolicy.try_from_proto p.to_proto = .ok p := by
  simp [KeyPolicy.to_proto, KeyPolicy.try_from_proto, algorithm_proto_roundtrip, usage_flags_proto_roundtrip]

theorem KeyAttributes.roundtrip (a : KeyAttributes) :
    ∃ p, KeyAttributes.try_to_proto a = .ok p ∧
      KeyAttributes.try_from_proto p = .ok a := by
  refine ⟨_, rfl, ?_⟩
  simp [KeyAttributes.try_to_proto, KeyAttributes.try_from_proto, key_policy_proto_roundtrip]

end ImportKey

/-- Claim C2: every value of the native import-key Operation type and
of the native import-key Result type survives the encode-then-decode
round trip with every field intact; in particular the test operation
with key_name "test name", data [0x11, 0x22, 0x33] and the populated
test key attributes round-trips, and the empty Result round-trips to
an equal empty Result. -/
theorem import_key_roundtrip :
    (∀ op : ImportKey.Operation, ∃ pr,
        ImportKey.OperationProto.try_from op = .ok pr ∧
          ImportKey.Operation.try_from pr = .ok op) ∧
      (∀ res : ImportKey.Result, ∃ rr,
        ImportKey.ResultProto.try_from res = .ok rr ∧
          ImportKey.Result.try_from rr = .ok res) ∧
      ∃ pr,
        ImportKey.OperationProto.try_from
            { key_name := "test name"
              attributes := ImportKey.test_key_attributes
              data := [0x11, 0x22, 0x33] } = .ok pr ∧
          ImportKey.Operation.try_from pr =
            .ok { key_name := "test name"
                  attributes := ImportKey.test_key_attributes
                  data := [0x11, 0x22, 0x33] } := by
  have hop : ∀ op : ImportKey.Operation, ∃ pr,
      ImportKey.OperationProto.try_from op = .ok pr ∧
        ImportKey.Operation.try_from pr = .ok op := by
    intro op
    obtain ⟨p, hp, hfrom⟩ := ImportKey.KeyAttributes.roundtrip op.attributes
    refine ⟨{ key_name := op.key_name, attributes := some p, data := op.data }, ?_, ?_⟩
    · simp [ImportKey.OperationProto.try_from, hp]
    · simp [ImportKey.Operation.try_from, hfrom]
  exact ⟨hop, fun res => ⟨{}, rfl, rfl⟩, hop _⟩

/-- Claim C6: decoding an import-key operation whose required
attributes sub-message is absent from the wire encoding fails with
InvalidEncoding, for every key_name and data payload — the missing
field is never defaulted. -/
theorem import_key_missing_attributes_invalid_encoding
    (key_name : String) (data : List Nat) :
    ImportKey.Operation.try_from
        { key_name := key_name, attributes := none, data := data } =
      .error .InvalidEncoding := rfl

/-- Claim C8: the import-key converter validates structure only:
whenever the attributes sub-message is present and converts, decoding
succeeds for every key_name and data — in particular an empty
key_name string or empty key-material data is accepted. -/
theorem import_key_structural_validation_only
    (key_name : String) (data : List Nat) (ap : ImportKey.KeyAttributesProto)
    (a : ImportKey.KeyAttributes)
    (ha : ImportKey.KeyAttributes.try_from_proto ap = .ok a) :
    ImportKey.Operation.try_from
        { key_name := key_name, attributes := some ap, data := data } =
      .ok { key_name := key_name, attributes := a, data := data } := by
  simp [ImportKey.Operation.try_from, ha]

/-- Claim C8 witness: the operation with an empty key name and empty
key material but the well-typed test attributes decodes
successfully. -/
theorem import_key_structural_validation_only_witness :
    ImportKey.Operation.try_from
        { key_name := ""
          attributes := some ImportKey.test_key_attributes_proto
          data := [] } =
      .ok { key_name := ""
            attributes := ImportKey.test_key_attributes
            data := [] } :=
  import_key_structural_validation_only "" [] ImportKey.test_key_attributes_proto
    ImportKey.test_key_attributes rfl

end ParsecInterface
